import Mathlib

/-!
Verification of the Strava dashboard core: the OAuth2 token lifecycle
manager and the API data-normalization layer, shallowly embedded from
`src/strava_data.py` and `src/auth_script.py`.

Modelling conventions:
  * JSON numbers are rationals (`ℚ`); exact arithmetic stands in for
    Python floats (no value in the claims is sensitive to binary
    representation error).
  * A JSON object with optional keys becomes a structure of `Option`
    fields; `dict.get(k, d)` becomes `Option.getD`, `dict[k]` becomes a
    match that raises `keyError` when the field is `none`.
  * HTTP is a capability: the network is a pure function from the
    request the code builds to a response `(status, body)`.
  * Python exceptions become `Except PyError`; a `print` of a warning
    becomes a `Bool` flag in the result.
-/

namespace Strava

/-- Errors raised by the embedded Python code.  `configError` models
`FileNotFoundError` / `json.JSONDecodeError` when loading the credential
file, `keyError` a `KeyError` on a dict subscript, `authError` the
`Exception("Token exchange failed: ...")` raised by `exchange_token` on a
non-200 status (the spec's `AuthError`), `httpError` the
`Exception("HTTP Error: ...")` raised on a non-200 API response, and
`valueError` the `ValueError` raised by `datetime.fromisoformat` on an
unparseable string. -/
inductive PyError where
  | configError : PyError
  | keyError : String → PyError
  | authError : Nat → PyError
  | httpError : Nat → PyError
  | valueError : PyError
deriving DecidableEq, Repr

/-- Result of `datetime.fromisoformat`: a calendar date-time with an
optional fixed UTC offset in minutes. -/
structure PyDatetime where
  year : Nat
  month : Nat
  day : Nat
  hour : Nat
  minute : Nat
  second : Nat
  tz_offset_minutes : Option Int
deriving DecidableEq, Repr

/-- Numeric value of a decimal digit character, `none` otherwise. -/
def digitVal (c : Char) : Option Nat :=
  if c.isDigit then some (c.toNat - 48) else none

/-- Two decimal digits as a number below 100. -/
def parse2 (a b : Char) : Option Nat := do
  let x ← digitVal a
  let y ← digitVal b
  some (10 * x + y)

/-- Four decimal digits as a number below 10000. -/
def parse4 (a b c d : Char) : Option Nat := do
  let x ← parse2 a b
  let y ← parse2 c d
  some (100 * x + y)

/-- Gregorian leap-year test, as validated by `datetime`. -/
def isLeapYear (y : Nat) : Bool :=
  (y % 4 == 0 && y % 100 != 0) || y % 400 == 0

/-- Number of days in a month, as validated by `datetime`. -/
def daysInMonth (y m : Nat) : Nat :=
  if m = 2 then (if isLeapYear y then 29 else 28)
  else if m = 4 ∨ m = 6 ∨ m = 9 ∨ m = 11 then 30 else 31

/-- UTC-offset suffix of an ISO string: empty, or sign, two hour digits,
a colon and two minute digits, as `±HH:MM`. -/
def parseOffset : List Char → Option (Option Int)
  | [] => some none
  | s :: h1 :: h2 :: ':' :: m1 :: m2 :: [] => do
      let sign ← if s = '+' then some (1 : Int)
                 else if s = '-' then some (-1 : Int) else none
      let oh ← parseOffset.hours h1 h2
      let om ← parse2 m1 m2
      if om ≤ 59 then some (some (sign * (60 * oh + om))) else none
  | _ => none
where
  /-- Offset hours, bounded below 24. -/
  hours (h1 h2 : Char) : Option Nat := do
    let oh ← parse2 h1 h2
    if oh ≤ 23 then some oh else none

/-- Time-of-day part `HH:MM:SS` with optional offset suffix. -/
def parseTime (chars : List Char) : Option (Nat × Nat × Nat × Option Int) :=
  match chars with
  | h1 :: h2 :: ':' :: m1 :: m2 :: ':' :: s1 :: s2 :: rest => do
      let hh ← parse2 h1 h2
      let mm ← parse2 m1 m2
      let ss ← parse2 s1 s2
      let off ← parseOffset rest
      if hh ≤ 23 ∧ mm ≤ 59 ∧ ss ≤ 59 then some (hh, mm, ss, off) else none
  | _ => none

/-- Model of CPython `datetime.fromisoformat` on the subset the code can
feed it: `YYYY-MM-DD`, optionally followed by one separator character and
`HH:MM:SS` with an optional `±HH:MM` offset (the `Z` suffix is already
replaced by `+00:00` by the caller).  `none` models the `ValueError`
raised on any other string — in particular on the empty string. -/
def fromisoformat (s : String) : Option PyDatetime :=
  match s.toList with
  | y1 :: y2 :: y3 :: y4 :: '-' :: m1 :: m2 :: '-' :: d1 :: d2 :: rest => do
      let year ← parse4 y1 y2 y3 y4
      let month ← parse2 m1 m2
      let day ← parse2 d1 d2
      if 1 ≤ year ∧ 1 ≤ month ∧ month ≤ 12 ∧ 1 ≤ day ∧
          day ≤ daysInMonth year month then
        match rest with
        | [] => some { year, month, day, hour := 0, minute := 0,
                       second := 0, tz_offset_minutes := none }
        | _sep :: timeChars => do
            let t ← parseTime timeChars
            some { year, month, day, hour := t.1, minute := t.2.1,
                   second := t.2.2.1, tz_offset_minutes := t.2.2.2 }
      else none
  | _ => none

/-- Python `round(x, 2)` on exact values: round half to even at the
second decimal. -/
def pyRound2 (x : ℚ) : ℚ :=
  let y := x * 100
  let n := Rat.floor y
  let r := y - n
  let m : Int :=
    if r < 1 / 2 then n
    else if 1 / 2 < r then n + 1
    else if n % 2 = 0 then n else n + 1
  (m : ℚ) / 100

/-- Model of the specific call `s.replace('Z', '+00:00')` in
`process_activities`: Python `str.replace` with the one-character
pattern `"Z"` rewrites every occurrence of that character. -/
def replaceZ : List Char → List Char
  | [] => []
  | c :: rest =>
    if c = 'Z' then '+' :: '0' :: '0' :: ':' :: '0' :: '0' :: replaceZ rest
    else c :: replaceZ rest

/-- Model of Python `str.strip()` with no argument: drop whitespace from
both ends. -/
def pyStrip (s : String) : String :=
  ((s.data.dropWhile Char.isWhitespace).reverse.dropWhile
    Char.isWhitespace).reverse.asString

/-- One raw activity object from the activities endpoint: every key the
code looks up, each possibly absent. -/
structure RawActivity where
  name : Option String := none
  type' : Option String := none
  start_date : Option String := none
  distance : Option ℚ := none
  moving_time : Option ℚ := none
  total_elevation_gain : Option ℚ := none
  average_speed : Option ℚ := none
  average_heartrate : Option ℚ := none
  max_heartrate : Option ℚ := none
deriving DecidableEq, Repr

/-- One row of the DataFrame built by `process_activities`
(`type` is spelled `type'` because `type` is reserved in Lean). -/
structure ActivityRecord where
  name : String
  type' : String
  start_date : PyDatetime
  distance_km : ℚ
  moving_time_min : ℚ
  total_elevation_gain : ℚ
  average_speed_kmh : ℚ
  average_heartrate : Option ℚ
  max_heartrate : Option ℚ
deriving DecidableEq, Repr

/-- Body of the row literal inside the loop of
`StravaDataFetcher.process_activities` (src/strava_data.py lines 66-76):
each `.get` defaults the missing field, the units are converted
(m→km ÷1000, s→min ÷60, m/s→km/h ×3.6) and rounded to 2 decimals, and
`start_date` is parsed with `fromisoformat` after replacing `Z` by
`+00:00`; a parse failure raises `ValueError`. -/
def normalizeOne (a : RawActivity) : Except PyError ActivityRecord :=
  match fromisoformat (List.asString (replaceZ ((a.start_date).getD "").data)) with
  | none => .error .valueError
  | some d => .ok
      { name := a.name.getD "Unnamed Activity"
        type' := a.type'.getD "Unknown"
        start_date := d
        distance_km := pyRound2 ((a.distance.getD 0) / 1000)
        moving_time_min := pyRound2 ((a.moving_time.getD 0) / 60)
        total_elevation_gain := pyRound2 (a.total_elevation_gain.getD 0)
        average_speed_kmh := pyRound2 ((a.average_speed.getD 0) * (36 / 10))
        average_heartrate := a.average_heartrate
        max_heartrate := a.max_heartrate }

/-- Loop of `StravaDataFetcher.process_activities`: rows are appended in
input order; the first exception aborts the whole batch. -/
def process_activities : List RawActivity → Except PyError (List ActivityRecord)
  | [] => .ok []
  | a :: rest => do
      let r ← normalizeOne a
      let rs ← process_activities rest
      pure (r :: rs)

/-- A full OAuth2 token triple (the spec's TokenSet). -/
structure TokenSet where
  access_token : String
  refresh_token : String
  expires_at : ℚ
deriving DecidableEq, Repr

/-- Contents of the credential file `strava_tokens.json` as a JSON
object: each of the three keys possibly absent. -/
structure TokenFile where
  access_token : Option String := none
  refresh_token : Option String := none
  expires_at : Option ℚ := none
deriving DecidableEq, Repr

/-- The JSON object `json.dump` writes for a full token triple. -/
def TokenSet.toFile (ts : TokenSet) : TokenFile :=
  { access_token := some ts.access_token
    refresh_token := some ts.refresh_token
    expires_at := some ts.expires_at }

/-- Reading the three keys of a loaded credential object back as a
TokenSet; `none` when any key is absent. -/
def readTokenSet (tf : TokenFile) : Option TokenSet :=
  match tf.access_token, tf.refresh_token, tf.expires_at with
  | some a, some r, some e => some ⟨a, r, e⟩
  | _, _, _ => none

/-- Client credentials held by `StravaAuthenticator` (loaded from the
environment in `auth_script.py`). -/
structure StravaAuthenticator where
  client_id : String
  client_secret : String
  redirect_uri : String
deriving DecidableEq, Repr

/-- The POST request `StravaAuthenticator.exchange_token` sends to the
token endpoint: exactly the four form fields of the source
(`client_id`, `client_secret`, `code`, `grant_type`). -/
structure TokenRequest where
  url : String
  client_id : String
  client_secret : String
  code : String
  grant_type : String
deriving DecidableEq, Repr

/-- Response of the token endpoint: an HTTP status and a JSON body with
the token keys possibly absent. -/
structure TokenResponse where
  status : Nat
  body : TokenFile
deriving DecidableEq, Repr

/-- The network as a capability: a pure function from the request the
code sends to the response it receives. -/
def TokenNet := TokenRequest → TokenResponse

/-- The request built by `StravaAuthenticator.exchange_token code`
(src/auth_script.py lines 31-37).  Note the form fields: the argument is
sent as `code` and `grant_type` is the literal `"authorization_code"`,
whatever the argument actually is. -/
def exchange_token_request (auth : StravaAuthenticator) (code : String) :
    TokenRequest :=
  { url := "https://www.strava.com/oauth/token"
    client_id := auth.client_id
    client_secret := auth.client_secret
    code := code
    grant_type := "authorization_code" }

/-- `StravaAuthenticator.exchange_token` (src/auth_script.py lines
29-42): send the request; on status 200 return the JSON body, otherwise
raise `Exception("Token exchange failed: ...")`. -/
def exchange_token (auth : StravaAuthenticator) (code : String)
    (net : TokenNet) : Except PyError TokenFile :=
  let resp := net (exchange_token_request auth code)
  if resp.status = 200 then .ok resp.body
  else .error (.authError resp.status)

/-- In-memory state of a `StravaDataFetcher` paired with the on-disk
credential file (`none` models a missing or unparseable file). -/
structure FetcherState where
  tokens : TokenFile
  disk : Option TokenFile
deriving DecidableEq, Repr

/-- `StravaDataFetcher._refresh_token` (src/strava_data.py lines 17-32):
read `self.tokens['refresh_token']` (KeyError when absent), call
`exchange_token` on it, rebuild `self.tokens` from the three keys of the
response body (KeyError when one is absent), and overwrite the
credential file with the new triple.  The returned state is the state
after the call even when it raises: every raise happens before
`self.tokens` is reassigned and before the file is written. -/
def refresh_token_op (auth : StravaAuthenticator) (net : TokenNet)
    (s : FetcherState) : FetcherState × Except PyError Unit :=
  match s.tokens.refresh_token with
  | none => (s, .error (.keyError "refresh_token"))
  | some rt =>
    match exchange_token auth rt net with
    | .error e => (s, .error e)
    | .ok new_tokens =>
      match new_tokens.access_token, new_tokens.refresh_token,
          new_tokens.expires_at with
      | some a, some r, some e =>
        let nt : TokenFile :=
          { access_token := some a, refresh_token := some r,
            expires_at := some e }
        ({ tokens := nt, disk := some nt }, .ok ())
      | none, _, _ => (s, .error (.keyError "access_token"))
      | some _, none, _ => (s, .error (.keyError "refresh_token"))
      | some _, some _, none => (s, .error (.keyError "expires_at"))

/-- `StravaDataFetcher.__init__` (src/strava_data.py lines 8-15): load
the credential file (ConfigurationError when missing or unparseable),
read `self.tokens['expires_at']` (KeyError when absent), and when
`now >= expires_at` run `_refresh_token` once.  The first component
counts the refresh exchanges actually sent to the token endpoint. -/
def fetcherInit (auth : StravaAuthenticator) (now : ℚ) (net : TokenNet)
    (disk : Option TokenFile) : Nat × Except PyError FetcherState :=
  match disk with
  | none => (0, .error .configError)
  | some tf =>
    match tf.expires_at with
    | none => (0, .error (.keyError "expires_at"))
    | some ea =>
      if ea ≤ now then
        match tf.refresh_token with
        | none => (0, .error (.keyError "refresh_token"))
        | some _ =>
          match refresh_token_op auth net { tokens := tf, disk := disk } with
          | (s', .ok ()) => (1, .ok s')
          | (_, .error e) => (1, .error e)
      else (0, .ok { tokens := tf, disk := disk })

/-- The spec's `getValidToken()`: construct the fetcher (which refreshes
exactly when the stored token is expired) and read the access token the
subsequent API calls use from `self.tokens['access_token']`.  The first
component counts refresh exchanges. -/
def getValidToken (auth : StravaAuthenticator) (now : ℚ) (net : TokenNet)
    (disk : Option TokenFile) : Nat × Except PyError String :=
  match fetcherInit auth now net disk with
  | (n, .ok s) =>
    match s.tokens.access_token with
    | some a => (n, .ok a)
    | none => (n, .error (.keyError "access_token"))
  | (n, .error e) => (n, .error e)

/-- Response of the activities endpoint: an HTTP status and a JSON array
of raw activity objects. -/
structure ActivitiesResponse where
  status : Nat
  body : List RawActivity
deriving DecidableEq, Repr

/-- `StravaDataFetcher.get_activities` (src/strava_data.py lines 34-60):
build the bearer header from `self.tokens['access_token']` (KeyError
when absent), raise on a non-200 status, print a warning when the list
is empty, and return the list.  The `Bool` records whether the warning
was printed. -/
def get_activities (tokens : TokenFile) (resp : ActivitiesResponse) :
    Except PyError (List RawActivity × Bool) :=
  match tokens.access_token with
  | none => .error (.keyError "access_token")
  | some _ =>
    if resp.status ≠ 200 then .error (.httpError resp.status)
    else .ok (resp.body, resp.body.isEmpty)

/-- One raw athlete object from the profile endpoint: every key the code
looks up, each possibly absent. -/
structure RawAthlete where
  firstname : Option String := none
  lastname : Option String := none
  username : Option String := none
  profile : Option String := none
  follower_count : Option Int := none
  friend_count : Option Int := none
deriving DecidableEq, Repr

/-- The profile record `get_athlete_profile` returns. -/
structure AthleteProfile where
  name : String
  username : Option String
  profile_image : Option String
  total_followers : Option Int
  total_friends : Option Int
deriving DecidableEq, Repr

/-- Response of the profile endpoint. -/
structure AthleteResponse where
  status : Nat
  body : RawAthlete
deriving DecidableEq, Repr

/-- `StravaDataFetcher.get_athlete_profile` (src/strava_data.py lines
79-104): bearer header from `self.tokens['access_token']`, raise on a
non-200 status, then map the JSON body with permissive lookups —
`firstname`/`lastname` default to `""` and are joined with a space and
stripped, the others map to `None` when absent. -/
def get_athlete_profile (tokens : TokenFile) (resp : AthleteResponse) :
    Except PyError AthleteProfile :=
  match tokens.access_token with
  | none => .error (.keyError "access_token")
  | some _ =>
    if resp.status ≠ 200 then .error (.httpError resp.status)
    else
      let a := resp.body
      .ok { name := pyStrip ((a.firstname.getD "") ++ " " ++ (a.lastname.getD ""))
            username := a.username
            profile_image := a.profile
            total_followers := a.follower_count
            total_friends := a.friend_count }

/-- Test fixture: client credentials. -/
def auth0 : StravaAuthenticator := ⟨"id", "secret", "uri"⟩

/-- Test fixture: a full stored token triple expiring at time 100. -/
def ts0 : TokenSet := ⟨"A", "R", 100⟩

/-- Test fixture: a token service that rejects every exchange with 400. -/
def net400 : TokenNet := fun _ => ⟨400, {}⟩

/-- Test fixture: a token service that accepts every exchange. -/
def netOK : TokenNet :=
  fun _ => ⟨200, { access_token := some "A2", refresh_token := some "R2",
                   expires_at := some 200 }⟩

/-- Test fixture: a token service that accepts only genuine
`grant_type=refresh_token` exchanges, as the OAuth2 refresh flow
requires, and rejects everything else with 400. -/
def netRefreshOnly : TokenNet :=
  fun req =>
    if req.grant_type = "refresh_token" then
      ⟨200, { access_token := some "A2", refresh_token := some "R2",
              expires_at := some 200 }⟩
    else ⟨400, {}⟩

/-- Unfolding of `normalizeOne` when the start-date parse succeeds. -/
theorem normalizeOne_some (a : RawActivity) (d : PyDatetime)
    (h : fromisoformat (List.asString (replaceZ ((a.start_date).getD "").data)) = some d) :
    normalizeOne a = .ok
      { name := a.name.getD "Unnamed Activity"
        type' := a.type'.getD "Unknown"
        start_date := d
        distance_km := pyRound2 ((a.distance.getD 0) / 1000)
        moving_time_min := pyRound2 ((a.moving_time.getD 0) / 60)
        total_elevation_gain := pyRound2 (a.total_elevation_gain.getD 0)
        average_speed_kmh := pyRound2 ((a.average_speed.getD 0) * (36 / 10))
        average_heartrate := a.average_heartrate
        max_heartrate := a.max_heartrate } := by
  unfold normalizeOne
  rw [h]

/-- Unfolding of `normalizeOne` when the start-date parse fails. -/
theorem normalizeOne_none (a : RawActivity)
    (h : fromisoformat (List.asString (replaceZ ((a.start_date).getD "").data)) = none) :
    normalizeOne a = .error .valueError := by
  unfold normalizeOne
  rw [h]

/-- Unfolding of `process_activities` on a cons cell. -/
theorem process_activities_cons (a : RawActivity) (l : List RawActivity) :
    process_activities (a :: l) =
      Except.bind (normalizeOne a)
        (fun r => Except.map (List.cons r) (process_activities l)) := rfl

/-- C1 counterexample: a raw activity object missing all optional fields
does NOT normalize to a defaulted record — the defaulted `start_date` is
the empty string, `fromisoformat` raises `ValueError`, and the whole
batch aborts. -/
theorem normalize_missing_all_fields_aborts :
    normalizeOne {} = .error .valueError ∧
    process_activities [{}] = .error .valueError :=
  ⟨rfl, rfl⟩

/-- C1 (amended): for every raw activity whose `start_date` is present
and parseable and whose other optional fields are all missing,
`normalizeOne` succeeds with the documented defaults (name
"Unnamed Activity", type "Unknown", zeroed numeric fields, absent heart
rates); but an activity whose `start_date` is missing or unparseable
raises `ValueError` and aborts the whole batch. -/
theorem normalize_defaults_except_start_date :
    ∀ (s : String) (d : PyDatetime),
      fromisoformat (List.asString (replaceZ s.data)) = some d →
      (normalizeOne { start_date := some s } =
        .ok { name := "Unnamed Activity", type' := "Unknown", start_date := d,
              distance_km := 0, moving_time_min := 0, total_elevation_gain := 0,
              average_speed_kmh := 0, average_heartrate := none,
              max_heartrate := none } ∧
       ∀ (a : RawActivity) (l : List RawActivity),
         fromisoformat (List.asString (replaceZ ((a.start_date).getD "").data)) = none →
         process_activities (a :: l) = .error .valueError) := by
  intro s d h
  constructor
  · rw [normalizeOne_some { start_date := some s } d h]
    norm_num [pyRound2, Rat.floor]
  · intro a l hn
    have hna := normalizeOne_none a hn
    rw [process_activities_cons, hna]
    rfl

/-- Witness for the amended C1 at a concrete parseable start date and at
the concrete all-missing object. -/
theorem normalize_defaults_except_start_date_witness :
    normalizeOne { start_date := some "2023-01-01T10:00:00Z" } =
      .ok { name := "Unnamed Activity", type' := "Unknown",
            start_date := ⟨2023, 1, 1, 10, 0, 0, some 0⟩,
            distance_km := 0, moving_time_min := 0, total_elevation_gain := 0,
            average_speed_kmh := 0, average_heartrate := none,
            max_heartrate := none } ∧
    process_activities [{}] = .error .valueError :=
  ⟨(normalize_defaults_except_start_date "2023-01-01T10:00:00Z"
      ⟨2023, 1, 1, 10, 0, 0, some 0⟩ rfl).1,
   (normalize_defaults_except_start_date "2023-01-01T10:00:00Z"
      ⟨2023, 1, 1, 10, 0, 0, some 0⟩ rfl).2 {} [] rfl⟩

/-- C7: `normalizeOne` applies the fixed unit conversions (distance
÷1000, moving time ÷60, average speed ×3.6, each rounded to 2 decimals);
in particular raw distance 5000, moving_time 1800, average_speed 2.78
yield 5.0 km, 30.0 min and 10.01 km/h. -/
theorem normalize_unit_conversions :
    (∀ (a : RawActivity) (rec : ActivityRecord), normalizeOne a = .ok rec →
       rec.distance_km = pyRound2 ((a.distance.getD 0) / 1000) ∧
       rec.moving_time_min = pyRound2 ((a.moving_time.getD 0) / 60) ∧
       rec.average_speed_kmh = pyRound2 ((a.average_speed.getD 0) * (36 / 10))) ∧
    normalizeOne { start_date := some "2023-01-01T10:00:00Z",
                   distance := some 5000, moving_time := some 1800,
                   average_speed := some (2.78 : ℚ) } =
      .ok { name := "Unnamed Activity", type' := "Unknown",
            start_date := ⟨2023, 1, 1, 10, 0, 0, some 0⟩,
            distance_km := 5, moving_time_min := 30, total_elevation_gain := 0,
            average_speed_kmh := 1001 / 100, average_heartrate := none,
            max_heartrate := none } := by
  constructor
  · intro a rec h
    unfold normalizeOne at h
    cases hf : fromisoformat (List.asString (replaceZ ((a.start_date).getD "").data)) with
    | none => rw [hf] at h; exact absurd h (by simp)
    | some d =>
      rw [hf] at h
      injection h with h
      subst h
      exact ⟨rfl, rfl, rfl⟩
  · rw [normalizeOne_some
      { start_date := some "2023-01-01T10:00:00Z", distance := some 5000,
        moving_time := some 1800, average_speed := some (2.78 : ℚ) }
      ⟨2023, 1, 1, 10, 0, 0, some 0⟩ rfl]
    norm_num [pyRound2, Rat.floor]

/-- Witness for C7's universal part at a concrete raw activity. -/
theorem normalize_unit_conversions_witness :
    (ActivityRecord.distance_km
        ⟨"Unnamed Activity", "Unknown", ⟨2023, 1, 1, 0, 0, 0, none⟩,
         pyRound2 ((0 : ℚ) / 1000), pyRound2 ((0 : ℚ) / 60), pyRound2 (0 : ℚ),
         pyRound2 ((0 : ℚ) * (36 / 10)), none, none⟩) =
      pyRound2 ((0 : ℚ) / 1000) :=
  (normalize_unit_conversions.1 { start_date := some "2023-01-01" }
    ⟨"Unnamed Activity", "Unknown", ⟨2023, 1, 1, 0, 0, 0, none⟩,
     pyRound2 ((0 : ℚ) / 1000), pyRound2 ((0 : ℚ) / 60), pyRound2 (0 : ℚ),
     pyRound2 ((0 : ℚ) * (36 / 10)), none, none⟩ rfl).1

/-- C10: on every input list where it succeeds, `process_activities`
returns exactly one record per input object, in input order (record `i`
is the normalization of raw object `i`), and it is deterministic. -/
theorem process_activities_one_to_one_ordered :
    ∀ (l : List RawActivity) (r : List ActivityRecord),
      process_activities l = .ok r →
      r.length = l.length ∧
      (∀ (i : Nat) (hi : i < l.length), ∃ hr : i < r.length,
         normalizeOne (l.get ⟨i, hi⟩) = .ok (r.get ⟨i, hr⟩)) ∧
      process_activities l = process_activities l := by
  intro l
  induction l with
  | nil =>
    intro r h
    simp only [process_activities] at h
    injection h with h
    subst h
    exact ⟨rfl, fun i hi => absurd hi (by simp), rfl⟩
  | cons a rest ih =>
    intro r h
    rw [process_activities_cons] at h
    cases hna : normalizeOne a with
    | error e => rw [hna] at h; simp [Except.bind] at h
    | ok r1 =>
      rw [hna] at h
      cases hpr : process_activities rest with
      | error e => rw [hpr] at h; simp [Except.bind, Except.map] at h
      | ok rs =>
        rw [hpr] at h
        simp only [Except.bind, Except.map, Except.ok.injEq] at h
        subst h
        obtain ⟨hlen, hord, -⟩ := ih rs hpr
        refine ⟨by simp [hlen], ?_, rfl⟩
        intro i hi
        match i with
        | 0 => exact ⟨by simp, by simpa using hna⟩
        | Nat.succ j =>
          obtain ⟨hr, he⟩ := hord j (by simpa using hi)
          exact ⟨by simpa using hr, by simpa using he⟩

/-- Witness for C10 at a concrete one-element batch. -/
theorem process_activities_one_to_one_ordered_witness :
    List.length [(⟨"Unnamed Activity", "Unknown", ⟨2023, 1, 1, 0, 0, 0, none⟩,
        pyRound2 ((0 : ℚ) / 1000), pyRound2 ((0 : ℚ) / 60), pyRound2 (0 : ℚ),
        pyRound2 ((0 : ℚ) * (36 / 10)), none, none⟩ : ActivityRecord)] =
      List.length [({ start_date := some "2023-01-01" } : RawActivity)] :=
  (process_activities_one_to_one_ordered [{ start_date := some "2023-01-01" }]
    [⟨"Unnamed Activity", "Unknown", ⟨2023, 1, 1, 0, 0, 0, none⟩,
      pyRound2 ((0 : ℚ) / 1000), pyRound2 ((0 : ℚ) / 60), pyRound2 (0 : ℚ),
      pyRound2 ((0 : ℚ) * (36 / 10)), none, none⟩] rfl).1

/-- Unfolding of `fetcherInit` on a full stored triple that is expired. -/
theorem fetcherInit_expired (auth : StravaAuthenticator) (net : TokenNet)
    (ts : TokenSet) (now : ℚ) (h : ts.expires_at ≤ now) :
    fetcherInit auth now net (some ts.toFile) =
      match refresh_token_op auth net ⟨ts.toFile, some ts.toFile⟩ with
      | (s', .ok ()) => (1, .ok s')
      | (_, .error e) => (1, .error e) := by
  unfold fetcherInit TokenSet.toFile
  dsimp only
  rw [if_pos h]

/-- Unfolding of `fetcherInit` on a full stored triple that is still
valid. -/
theorem fetcherInit_fresh (auth : StravaAuthenticator) (net : TokenNet)
    (ts : TokenSet) (now : ℚ) (h : ¬ ts.expires_at ≤ now) :
    fetcherInit auth now net (some ts.toFile) =
      (0, .ok ⟨ts.toFile, some ts.toFile⟩) := by
  unfold fetcherInit TokenSet.toFile
  dsimp only
  rw [if_neg h]

/-- Behaviour of `_refresh_token` when the exchange returns a non-200
status: the error is raised before `self.tokens` is reassigned and
before the file write, so the state is returned unchanged. -/
theorem refresh_token_op_fail (auth : StravaAuthenticator) (net : TokenNet)
    (s : FetcherState) (rt : String) (hrt : s.tokens.refresh_token = some rt)
    (hst : (net (exchange_token_request auth rt)).status ≠ 200) :
    refresh_token_op auth net s =
      (s, .error (.authError (net (exchange_token_request auth rt)).status)) := by
  unfold refresh_token_op exchange_token
  rw [hrt]
  dsimp only
  rw [if_neg hst]

/-- C2: for every full TokenSet, `getValidToken` triggers exactly one
refresh exchange when `expires_at` lies in the past and zero refresh
exchanges — returning the cached access token unchanged — when
`expires_at` lies in the future. -/
theorem getValidToken_refresh_exactly_when_expired :
    ∀ (auth : StravaAuthenticator) (net : TokenNet) (ts : TokenSet) (now : ℚ),
      (ts.expires_at < now → (getValidToken auth now net (some ts.toFile)).1 = 1) ∧
      (now < ts.expires_at →
        getValidToken auth now net (some ts.toFile) = (0, .ok ts.access_token)) := by
  intro auth net ts now
  constructor
  · intro h
    unfold getValidToken
    rw [fetcherInit_expired auth net ts now (le_of_lt h)]
    rcases hro : refresh_token_op auth net ⟨ts.toFile, some ts.toFile⟩ with ⟨s', e'⟩
    cases e' with
    | error e => rfl
    | ok u =>
      cases u
      cases hat : s'.tokens.access_token with
      | none => simp [hat]
      | some a => simp [hat]
  · intro h
    unfold getValidToken
    rw [fetcherInit_fresh auth net ts now (not_le.mpr h)]
    simp [TokenSet.toFile]

/-- Witness for C2 at the concrete fixture token (expiring at 100),
once seen from time 200 and once from time 50. -/
theorem getValidToken_refresh_exactly_when_expired_witness :
    (getValidToken auth0 200 net400 (some ts0.toFile)).1 = 1 ∧
    getValidToken auth0 50 net400 (some ts0.toFile) = (0, .ok "A") :=
  ⟨(getValidToken_refresh_exactly_when_expired auth0 net400 ts0 200).1
      (by norm_num [ts0]),
   (getValidToken_refresh_exactly_when_expired auth0 net400 ts0 50).2
      (by norm_num [ts0])⟩

/-- C3: when the refresh exchange returns a non-success status,
`_refresh_token` raises the token-exchange-failed error (the spec's
`AuthError`) and the operation is atomic — the in-memory tokens and the
on-disk credential file are both unchanged; `getValidToken` propagates
the same error. -/
theorem refresh_failure_is_atomic :
    (∀ (auth : StravaAuthenticator) (net : TokenNet) (s : FetcherState)
        (rt : String),
      s.tokens.refresh_token = some rt →
      (net (exchange_token_request auth rt)).status ≠ 200 →
      refresh_token_op auth net s =
        (s, .error (.authError (net (exchange_token_request auth rt)).status))) ∧
    (∀ (auth : StravaAuthenticator) (net : TokenNet) (ts : TokenSet) (now : ℚ),
      (net (exchange_token_request auth ts.refresh_token)).status ≠ 200 →
      ts.expires_at ≤ now →
      (getValidToken auth now net (some ts.toFile)).2 =
        .error (.authError (net (exchange_token_request auth ts.refresh_token)).status)) := by
  constructor
  · exact refresh_token_op_fail
  · intro auth net ts now hst hle
    unfold getValidToken
    rw [fetcherInit_expired auth net ts now hle,
        refresh_token_op_fail auth net ⟨ts.toFile, some ts.toFile⟩
          ts.refresh_token rfl hst]

/-- Witness for C3 against the always-rejecting token service. -/
theorem refresh_failure_is_atomic_witness :
    refresh_token_op auth0 net400 ⟨ts0.toFile, some ts0.toFile⟩ =
      (⟨ts0.toFile, some ts0.toFile⟩, .error (.authError 400)) ∧
    (getValidToken auth0 200 net400 (some ts0.toFile)).2 =
      .error (.authError 400) :=
  ⟨refresh_failure_is_atomic.1 auth0 net400 ⟨ts0.toFile, some ts0.toFile⟩ "R"
      rfl (by decide),
   refresh_failure_is_atomic.2 auth0 net400 ts0 200 (by decide)
      (by norm_num [ts0])⟩

/-- C4 evidence: the request `_refresh_token` sends carries
`grant_type = "authorization_code"` — not `"refresh_token"` — with the
stored refresh token in the `code` form field, so a token service that
accepts only genuine refresh-token grants rejects the refresh and the
operation fails. -/
theorem refresh_sends_authorization_code_grant :
    (exchange_token_request auth0 "R").grant_type = "authorization_code" ∧
    (exchange_token_request auth0 "R").code = "R" ∧
    ("authorization_code" : String) ≠ "refresh_token" ∧
    refresh_token_op auth0 netRefreshOnly ⟨ts0.toFile, some ts0.toFile⟩ =
      (⟨ts0.toFile, some ts0.toFile⟩, .error (.authError 400)) := by
  refine ⟨rfl, rfl, by decide, ?_⟩
  rfl

/-- C5 counterexample: a credential file missing `access_token` (with an
unexpired `expires_at`) does NOT make loading fail — `__init__` only
reads `expires_at`, so construction succeeds. -/
theorem load_missing_access_token_no_error :
    (fetcherInit auth0 0 net400
        (some { access_token := none, refresh_token := some "R",
                expires_at := some 100 })).2 =
      .ok ⟨{ access_token := none, refresh_token := some "R",
             expires_at := some 100 },
           some { access_token := none, refresh_token := some "R",
                  expires_at := some 100 }⟩ := by
  unfold fetcherInit
  dsimp only
  rw [if_neg (by norm_num : ¬ (100 : ℚ) ≤ 0)]

/-- C5 (amended): loading fails when the credential source is missing or
malformed (ConfigurationError) or when `expires_at` is absent
(a key error); when the stored token is expired it additionally fails if
`refresh_token` is absent; but an absent `access_token` with an
unexpired `expires_at` does not make loading fail — the stored fields
are returned as they are. -/
theorem load_validation_amended :
    (∀ (auth : StravaAuthenticator) (now : ℚ) (net : TokenNet),
        fetcherInit auth now net none = (0, .error .configError)) ∧
    (∀ (auth : StravaAuthenticator) (now : ℚ) (net : TokenNet) (tf : TokenFile),
        tf.expires_at = none →
        fetcherInit auth now net (some tf) = (0, .error (.keyError "expires_at"))) ∧
    (∀ (auth : StravaAuthenticator) (now : ℚ) (net : TokenNet)
        (a : Option String) (e : ℚ),
        e ≤ now →
        fetcherInit auth now net (some ⟨a, none, some e⟩) =
          (0, .error (.keyError "refresh_token"))) ∧
    (∀ (auth : StravaAuthenticator) (now : ℚ) (net : TokenNet)
        (a r : Option String) (e : ℚ),
        now < e →
        fetcherInit auth now net (some ⟨a, r, some e⟩) =
          (0, .ok ⟨⟨a, r, some e⟩, some ⟨a, r, some e⟩⟩)) := by
  refine ⟨fun auth now net => rfl, ?_, ?_, ?_⟩
  · intro auth now net tf h
    unfold fetcherInit
    dsimp only
    rw [h]
  · intro auth now net a e h
    unfold fetcherInit
    dsimp only
    rw [if_pos h]
  · intro auth now net a r e h
    unfold fetcherInit
    dsimp only
    rw [if_neg (not_le.mpr h)]

/-- Witness for the amended C5 at concrete credential files. -/
theorem load_validation_amended_witness :
    fetcherInit auth0 0 net400 none = (0, .error .configError) ∧
    fetcherInit auth0 0 net400 (some { refresh_token := some "R" }) =
      (0, .error (.keyError "expires_at")) ∧
    fetcherInit auth0 200 net400 (some ⟨some "A", none, some 100⟩) =
      (0, .error (.keyError "refresh_token")) ∧
    fetcherInit auth0 0 net400 (some ⟨none, some "R", some 100⟩) =
      (0, .ok ⟨⟨none, some "R", some 100⟩, some ⟨none, some "R", some 100⟩⟩) :=
  ⟨load_validation_amended.1 auth0 0 net400,
   load_validation_amended.2.1 auth0 0 net400 { refresh_token := some "R" } rfl,
   load_validation_amended.2.2.1 auth0 200 net400 (some "A") 100
     (by norm_num),
   load_validation_amended.2.2.2 auth0 0 net400 none (some "R") 100
     (by norm_num)⟩

/-- C6: when the activities endpoint answers 200 with an empty list,
`get_activities` returns the empty list together with the printed
warning, and raises no exception. -/
theorem get_activities_empty_warns :
    ∀ (tokens : TokenFile) (tk : String) (resp : ActivitiesResponse),
      tokens.access_token = some tk → resp.status = 200 → resp.body = [] →
      get_activities tokens resp = .ok ([], true) := by
  intro tokens tk resp h1 h2 h3
  unfold get_activities
  rw [h1]
  cases resp with
  | mk st body =>
    dsimp only at h2 h3 ⊢
    subst h2
    subst h3
    rw [if_neg (show ¬ (200 ≠ 200) by decide)]
    rfl

/-- Witness for C6 at a concrete empty 200 response. -/
theorem get_activities_empty_warns_witness :
    get_activities ⟨some "T", none, none⟩ ⟨200, []⟩ = .ok ([], true) :=
  get_activities_empty_warns ⟨some "T", none, none⟩ "T" ⟨200, []⟩ rfl rfl rfl

/-- C8: `get_athlete_profile` maps a 200 profile response to a record
whose name is firstname and lastname joined and stripped, every missing
optional field becoming `none` rather than a failure; in particular the
Jane Doe response with no follower count yields name "Jane Doe" with
absent followers. -/
theorem get_athlete_profile_defaults :
    ∀ (tokens : TokenFile) (tk : String) (raw : RawAthlete),
      tokens.access_token = some tk →
      (get_athlete_profile tokens ⟨200, raw⟩ =
        .ok { name := pyStrip ((raw.firstname.getD "") ++ " " ++ (raw.lastname.getD ""))
              username := raw.username
              profile_image := raw.profile
              total_followers := raw.follower_count
              total_friends := raw.friend_count } ∧
       get_athlete_profile tokens
           ⟨200, { firstname := some "Jane", lastname := some "Doe" }⟩ =
         .ok ⟨"Jane Doe", none, none, none, none⟩) := by
  intro tokens tk raw h
  unfold get_athlete_profile
  rw [h]
  exact ⟨rfl, rfl⟩

/-- Witness for C8 at the all-absent profile and the Jane Doe profile. -/
theorem get_athlete_profile_defaults_witness :
    get_athlete_profile ⟨some "T", none, none⟩ ⟨200, {}⟩ =
      .ok ⟨"", none, none, none, none⟩ ∧
    get_athlete_profile ⟨some "T", none, none⟩
        ⟨200, { firstname := some "Jane", lastname := some "Doe" }⟩ =
      .ok ⟨"Jane Doe", none, none, none, none⟩ :=
  ⟨(get_athlete_profile_defaults ⟨some "T", none, none⟩ "T" {} rfl).1,
   (get_athlete_profile_defaults ⟨some "T", none, none⟩ "T" {} rfl).2⟩

/-- C9: persisting a TokenSet as the three-key JSON object and reading
the three keys back yields the same TokenSet field for field. -/
theorem tokenset_roundtrip : ∀ ts : TokenSet, readTokenSet ts.toFile = some ts :=
  fun _ => rfl

end Strava
